import Mathlib

/-!
Verification development for the Etisalat UPG "Request to Pay" relay.

The repository consists of an Express HTTP endpoint (`src/server.js`), a
gateway client (`src/services/upgService.js`, which contains three revisions
of the function `requestToPay`: a single-attempt revision, a retry revision,
and an older simple revision), and an HMAC-SHA256 signer (`src/utils/hash.js`).

This file shallowly embeds those functions:
  * JavaScript values relevant to the code are modelled by `JsVal`
    (strings, numbers as exact rationals, booleans, and NaN); JS truthiness
    is `truthy`.  Number parsing (`parseFloat`, `parseInt`, `Math.round`)
    is modelled over the rationals; this is exact for the decimal literals
    the code manipulates.
  * `generateSecureHash` (src/utils/hash.js) is embedded over a full
    executable SHA-256 / HMAC-SHA256. `Buffer.from(key, 'hex')` is embedded
    with Node's documented semantics: decoding is truncated at the first
    invalid pair (it never throws).
  * `requestToPay` (first revision, upgService.js lines 28-169) and
    `requestToPayRetry` (retry revision, lines 201-382) are embedded with the
    network as an explicit parameter producing per-attempt outcomes.
  * The POST /api/request-to-pay handler (src/server.js) is embedded as
    `handleRequestToPay`, with the gateway call as an explicit parameter.
-/

/-! ## JavaScript value model -/

/-- A JavaScript value as used by the payment code: a string, a number
(modelled as an exact rational; the code only manipulates decimal literals
for which IEEE doubles and rationals agree), a boolean, or NaN. -/
inductive JsVal where
  | str (s : String)
  | num (q : ℚ)
  | bool (b : Bool)
  | nan
deriving DecidableEq, Repr

/-- JS truthiness: empty string, 0, false and NaN are falsy. -/
def truthy : JsVal → Bool
  | .str s => s != ""
  | .num q => q != 0
  | .bool b => b
  | .nan => false

/-- Truthiness of a possibly-absent object property (absent = undefined = falsy). -/
def getT : Option JsVal → Bool
  | some v => truthy v
  | none => false

/-- Truthiness of a possibly-absent string-valued form field. -/
def truthyS : Option String → Bool
  | some s => s != ""
  | none => false

/-- Numeric value of a list of decimal digit characters. -/
def digitsVal (cs : List Char) : Nat :=
  cs.foldl (fun a c => a * 10 + (c.toNat - 48)) 0

/-- JS `parseFloat` on a string, for the sign/digits/fraction shapes the code
feeds it (no exponent forms occur in the repository); parses the longest valid
leading prefix, `none` meaning NaN. -/
def parseDecimal? (s : String) : Option ℚ :=
  let p : (ℤ × List Char) :=
    match s.data with
    | '-' :: r => (-1, r)
    | '+' :: r => (1, r)
    | r => (1, r)
  let intPart := p.2.takeWhile Char.isDigit
  let rest := p.2.dropWhile Char.isDigit
  let fracPart :=
    match rest with
    | '.' :: r => r.takeWhile Char.isDigit
    | _ => []
  if intPart.isEmpty && fracPart.isEmpty then none
  else
    -- sign * (intPart + fracPart / 10^k), written as one exact fraction
    -- (`mkRat` is used because it evaluates; the value is the same rational)
    some (mkRat (p.1 * (digitsVal intPart * 10 ^ fracPart.length + digitsVal fracPart))
      (10 ^ fracPart.length))

/-- Truncation of a rational toward zero (how JS `parseInt` and integer
conversion behave on a finite number): T-division of the numerator by the
(positive) denominator. -/
def ratTrunc (q : ℚ) : ℤ := q.num.tdiv q.den

/-- JS `parseFloat` applied to a JS value (a number round-trips through its
decimal printing, exact for the values occurring here; booleans and NaN give NaN). -/
def jsParseFloat : JsVal → JsVal
  | .str s =>
    match parseDecimal? s with
    | some q => .num q
    | none => .nan
  | .num q => .num q
  | .bool _ => .nan
  | .nan => .nan

/-- JS `parseInt` applied to a JS value, `none` meaning NaN. -/
def jsParseInt : JsVal → Option ℤ
  | .num q => some (ratTrunc q)
  | .str s =>
    let p : (ℤ × List Char) :=
      match s.data with
      | '-' :: r => (-1, r)
      | '+' :: r => (1, r)
      | r => (1, r)
    let ds := p.2.takeWhile Char.isDigit
    if ds.isEmpty then none else some (p.1 * (digitsVal ds : ℤ))
  | .bool _ => none
  | .nan => none

/-- JS `Math.round`: round half toward positive infinity,
`⌊q + 1/2⌋ = (2*num + den) ediv (2*den)` written on the numerator and
(positive) denominator so that it evaluates. -/
def jsMathRound (q : ℚ) : ℤ := (2 * q.num + q.den).ediv (2 * q.den)

/-- Multiplication of an exact rational by 100 (the piaster conversion),
written as one fraction so that it evaluates. -/
def jsTimes100 (q : ℚ) : ℚ := mkRat (q.num * 100) q.den

/-- JS string coercion (template-literal semantics) of the values the code
interpolates; numbers only occur with integral values in those positions. -/
def jsToString : JsVal → String
  | .str s => s
  | .num q => if q.den = 1 then toString q.num else toString q
  | .bool b => if b then "true" else "false"
  | .nan => "NaN"

/-! ## SHA-256 and HMAC-SHA256 (the `crypto` primitives used by hash.js) -/

namespace Sha256

/-- Right rotation of a 32-bit word. -/
def rotr (n x : Nat) : Nat := ((x >>> n) ||| (x <<< (32 - n))) % 2 ^ 32

def ch (x y z : Nat) : Nat := (x &&& y) ^^^ ((x ^^^ 0xFFFFFFFF) &&& z)

def maj (x y z : Nat) : Nat := (x &&& y) ^^^ (x &&& z) ^^^ (y &&& z)

def bigSigma0 (x : Nat) : Nat := rotr 2 x ^^^ rotr 13 x ^^^ rotr 22 x

def bigSigma1 (x : Nat) : Nat := rotr 6 x ^^^ rotr 11 x ^^^ rotr 25 x

def smallSigma0 (x : Nat) : Nat := rotr 7 x ^^^ rotr 18 x ^^^ (x >>> 3)

def smallSigma1 (x : Nat) : Nat := rotr 17 x ^^^ rotr 19 x ^^^ (x >>> 10)

/-- The 64 SHA-256 round constants. -/
def K : List Nat :=
  [1116352408, 1899447441, 3049323471, 3921009573, 961987163,
   1508970993, 2453635748, 2870763221, 3624381080, 310598401,
   607225278, 1426881987, 1925078388, 2162078206, 2614888103,
   3248222580, 3835390401, 4022224774, 264347078, 604807628,
   770255983, 1249150122, 1555081692, 1996064986, 2554220882,
   2821834349, 2952996808, 3210313671, 3336571891, 3584528711,
   113926993, 338241895, 666307205, 773529912, 1294757372,
   1396182291, 1695183700, 1986661051, 2177026350, 2456956037,
   2730485921, 2820302411, 3259730800, 3345764771, 3516065817,
   3600352804, 4094571909, 275423344, 430227734, 506948616,
   659060556, 883997877, 958139571, 1322822218, 1537002063,
   1747873779, 1955562222, 2024104815, 2227730452, 2361852424,
   2428436474, 2756734187, 3204031479, 3329325298]

/-- Working state of the compression function. -/
structure St where
  a : Nat
  b : Nat
  c : Nat
  d : Nat
  e : Nat
  f : Nat
  g : Nat
  h : Nat
deriving DecidableEq, Repr

/-- Initial hash value H(0). -/
def initSt : St :=
  ⟨1779033703, 3144134277, 1013904242, 2773480762,
   1359893119, 2600822924, 528734635, 1541459225⟩

/-- Extend a message schedule by one word. -/
def scheduleStep (w : List Nat) : List Nat :=
  let n := w.length
  w ++ [(smallSigma1 (w.getD (n - 2) 0) + w.getD (n - 7) 0 +
         smallSigma0 (w.getD (n - 15) 0) + w.getD (n - 16) 0) % 2 ^ 32]

/-- Full 64-word message schedule from a 16-word block. -/
def schedule (block : List Nat) : List Nat :=
  (List.range 48).foldl (fun w _ => scheduleStep w) block

/-- One compression round. -/
def round (s : St) (kw : Nat × Nat) : St :=
  let t1 := (s.h + bigSigma1 s.e + ch s.e s.f s.g + kw.1 + kw.2) % 2 ^ 32
  let t2 := (bigSigma0 s.a + maj s.a s.b s.c) % 2 ^ 32
  ⟨(t1 + t2) % 2 ^ 32, s.a, s.b, s.c, (s.d + t1) % 2 ^ 32, s.e, s.f, s.g⟩

/-- Compress one 16-word block into the running state. -/
def compress (h : St) (block : List Nat) : St :=
  let s := (K.zip (schedule block)).foldl round h
  ⟨(h.a + s.a) % 2 ^ 32, (h.b + s.b) % 2 ^ 32, (h.c + s.c) % 2 ^ 32,
   (h.d + s.d) % 2 ^ 32, (h.e + s.e) % 2 ^ 32, (h.f + s.f) % 2 ^ 32,
   (h.g + s.g) % 2 ^ 32, (h.h + s.h) % 2 ^ 32⟩

/-- Big-endian byte decomposition, `k` bytes of `n`. -/
def bytesBE (k n : Nat) : List Nat :=
  (List.range k).map (fun i => (n >>> (8 * (k - 1 - i))) % 256)

/-- SHA-256 padding of a byte message: 0x80, zeros, 64-bit big-endian bit length. -/
def padMessage (msg : List Nat) : List Nat :=
  let l := msg.length
  let z := (64 + 56 - (l + 1) % 64) % 64
  msg ++ [0x80] ++ List.replicate z 0 ++ bytesBE 8 (8 * l)

/-- Split a byte list into 64-byte chunks. -/
def chunk64 : List Nat → List (List Nat)
  | [] => []
  | x :: xs => ((x :: xs).take 64) :: chunk64 ((x :: xs).drop 64)
termination_by l => l.length
decreasing_by simp [List.length_drop]; omega

/-- Pack a 64-byte chunk into 16 big-endian 32-bit words. -/
def toWords (block : List Nat) : List Nat :=
  (List.range 16).map (fun i =>
    (block.getD (4 * i) 0 <<< 24) ||| (block.getD (4 * i + 1) 0 <<< 16) |||
    (block.getD (4 * i + 2) 0 <<< 8) ||| block.getD (4 * i + 3) 0)

/-- SHA-256 of a byte message, as 32 bytes. -/
def sha256 (msg : List Nat) : List Nat :=
  let st := ((chunk64 (padMessage msg)).map toWords).foldl compress initSt
  bytesBE 4 st.a ++ bytesBE 4 st.b ++ bytesBE 4 st.c ++ bytesBE 4 st.d ++
  bytesBE 4 st.e ++ bytesBE 4 st.f ++ bytesBE 4 st.g ++ bytesBE 4 st.h

/-- HMAC-SHA256 (what `crypto.createHmac('sha256', key)` computes; any key
length is accepted, including the empty key). -/
def hmacSha256 (key msg : List Nat) : List Nat :=
  let k0 := if 64 < key.length then sha256 key else key
  let kp := k0 ++ List.replicate (64 - k0.length) 0
  sha256 ((kp.map (· ^^^ 0x5c)) ++ sha256 ((kp.map (· ^^^ 0x36)) ++ msg))

end Sha256

/-! ## Byte/string codecs used around the hash -/

/-- UTF-8 encoding of one character (what `hmac.update(s, 'utf8')` feeds in). -/
def utf8EncodeChar (c : Char) : List Nat :=
  let v := c.toNat
  if v < 0x80 then [v]
  else if v < 0x800 then
    [0xC0 ||| (v >>> 6), 0x80 ||| (v &&& 0x3F)]
  else if v < 0x10000 then
    [0xE0 ||| (v >>> 12), 0x80 ||| ((v >>> 6) &&& 0x3F), 0x80 ||| (v &&& 0x3F)]
  else
    [0xF0 ||| (v >>> 18), 0x80 ||| ((v >>> 12) &&& 0x3F),
     0x80 ||| ((v >>> 6) &&& 0x3F), 0x80 ||| (v &&& 0x3F)]

/-- UTF-8 bytes of a string. -/
def utf8Bytes (s : String) : List Nat :=
  s.data.foldr (fun c acc => utf8EncodeChar c ++ acc) []

/-- Value of a hexadecimal digit character, if it is one. -/
def hexVal? (c : Char) : Option Nat :=
  if '0' ≤ c ∧ c ≤ '9' then some (c.toNat - 48)
  else if 'a' ≤ c ∧ c ≤ 'f' then some (c.toNat - 87)
  else if 'A' ≤ c ∧ c ≤ 'F' then some (c.toNat - 55)
  else none

/-- Node `Buffer.from(s, 'hex')` semantics on the character list: decode
byte pairs, truncating at the first invalid pair or the odd trailing
character.  It never fails. -/
def hexDecodeNodeAux : List Char → List Nat
  | c1 :: c2 :: rest =>
    match hexVal? c1, hexVal? c2 with
    | some h, some l => (h * 16 + l) :: hexDecodeNodeAux rest
    | _, _ => []
  | _ => []

/-- Node `Buffer.from(s, 'hex')`: truncating hexadecimal decode. -/
def hexDecodeNode (s : String) : List Nat := hexDecodeNodeAux s.data

/-- Strict hexadecimal decoding, following the spec's words ("decodes the
secret key from hexadecimal into raw bytes"): defined only for even-length
strings of hexadecimal digits. -/
def hexDecodeSpecAux : List Char → Option (List Nat)
  | [] => some []
  | c1 :: c2 :: rest => do
    let h ← hexVal? c1
    let l ← hexVal? c2
    let t ← hexDecodeSpecAux rest
    pure ((h * 16 + l) :: t)
  | [_] => none

/-- Strict hexadecimal decoding of a string (spec-side definition). -/
def hexDecodeSpec (s : String) : Option (List Nat) := hexDecodeSpecAux s.data

/-- Lowercase-hex digit for a value below 16. -/
def hexDigitChar (n : Nat) : Char :=
  if n < 10 then Char.ofNat (48 + n) else Char.ofNat (87 + n)

/-- Lowercase hexadecimal rendering of a byte list (`digest('hex')`). -/
def bytesToHexLower (bs : List Nat) : String :=
  String.mk (bs.foldr (fun b acc => hexDigitChar (b / 16) :: hexDigitChar (b % 16) :: acc) [])

/-! ## src/utils/hash.js -/

/-- The canonical string signed by `generateSecureHash`
(hash.js line 15). -/
def dataString (dateTimeLocalTrxn merchantId terminalId : String) : String :=
  "DateTimeLocalTrxn=" ++ dateTimeLocalTrxn ++ "&MerchantId=" ++ merchantId ++
    "&TerminalId=" ++ terminalId

/-- `generateSecureHash` (src/utils/hash.js lines 11-29): build the canonical
string, hex-decode the key Node-style, HMAC-SHA256, lowercase-hex digest,
uppercase. -/
def generateSecureHash (dateTimeLocalTrxn merchantId terminalId merchantSecretKey : String) : String :=
  let keyBuffer := hexDecodeNode merchantSecretKey
  (bytesToHexLower (Sha256.hmacSha256 keyBuffer
    (utf8Bytes (dataString dateTimeLocalTrxn merchantId terminalId)))).toUpper

/-- `generateSecureHash` with its try/catch made explicit: the body is wrapped
so that an error from a sub-operation would surface as
`Failed to generate secure hash: ...`.  `Buffer.from(s, 'hex')` never throws
(Node truncates invalid input), `createHmac` accepts keys of any length
including empty, and `update`/`digest` cannot fail on a string input, so the
embedded sub-operations are total. -/
def generateSecureHashE (dateTimeLocalTrxn merchantId terminalId merchantSecretKey : String) :
    Except String String :=
  let keyBuffer : Except String (List Nat) := .ok (hexDecodeNode merchantSecretKey)
  match keyBuffer with
  | .error e => .error ("Failed to generate secure hash: " ++ e)
  | .ok kb =>
    .ok ((bytesToHexLower (Sha256.hmacSha256 kb
      (utf8Bytes (dataString dateTimeLocalTrxn merchantId terminalId)))).toUpper)

/-- The spec-side signer ("builds a canonical key-value string ..., computes a
keyed hash (HMAC construction) over the canonical string using the decoded
key, and returns the hash as uppercase hexadecimal"), taking the already
decoded key bytes. -/
def signSpec (t m term : String) (keyBytes : List Nat) : String :=
  (bytesToHexLower (Sha256.hmacSha256 keyBytes
    (utf8Bytes ("DateTimeLocalTrxn=" ++ t ++ "&MerchantId=" ++ m ++
      "&TerminalId=" ++ term)))).toUpper

/-! ## Payment data (the `paymentData` object passed to requestToPay) -/

/-- The `paymentData` object: each property is either absent (`none`,
JS `undefined`) or a JS value. -/
structure PaymentData where
  amountTrxn : Option JsVal := none
  currency : Option JsVal := none
  mobileNumber : Option JsVal := none
  merchantId : Option JsVal := none
  terminalId : Option JsVal := none
  merchantSecretKey : Option JsVal := none
  merchantReference : Option JsVal := none
  validity : Option JsVal := none
  loyaltyNumber : Option JsVal := none
  customerLabel : Option JsVal := none
  purposeOfTransaction : Option JsVal := none
  billNumber : Option JsVal := none
  tip : Option JsVal := none
  convenienceFeeFixed : Option JsVal := none
  convenienceFeePercentage : Option JsVal := none
deriving DecidableEq, Repr

/-- Index of the six required fields checked by requestToPay
(upgService.js line 31). -/
inductive ReqField where
  | amountTrxn
  | currency
  | mobileNumber
  | merchantId
  | terminalId
  | merchantSecretKey
deriving DecidableEq, Repr

/-- The name string of a required field, as it appears in the error message. -/
def reqFieldName : ReqField → String
  | .amountTrxn => "amountTrxn"
  | .currency => "currency"
  | .mobileNumber => "mobileNumber"
  | .merchantId => "merchantId"
  | .terminalId => "terminalId"
  | .merchantSecretKey => "merchantSecretKey"

/-- Property lookup for a required field. -/
def getReq (pd : PaymentData) : ReqField → Option JsVal
  | .amountTrxn => pd.amountTrxn
  | .currency => pd.currency
  | .mobileNumber => pd.mobileNumber
  | .merchantId => pd.merchantId
  | .terminalId => pd.terminalId
  | .merchantSecretKey => pd.merchantSecretKey

/-- Overwrite a required field's property. -/
def setReq (pd : PaymentData) (f : ReqField) (v : Option JsVal) : PaymentData :=
  match f with
  | .amountTrxn => { pd with amountTrxn := v }
  | .currency => { pd with currency := v }
  | .mobileNumber => { pd with mobileNumber := v }
  | .merchantId => { pd with merchantId := v }
  | .terminalId => { pd with terminalId := v }
  | .merchantSecretKey => { pd with merchantSecretKey := v }

/-- The `requiredFields` array, in source order (upgService.js line 31). -/
def requiredFields : List ReqField :=
  [.amountTrxn, .currency, .mobileNumber, .merchantId, .terminalId, .merchantSecretKey]

/-- The validation loop (upgService.js lines 32-36): the first required field
whose value is falsy (absent, 0, empty string, false or NaN), if any. -/
def firstFalsy (pd : PaymentData) : Option ReqField :=
  requiredFields.find? (fun f => !getT (getReq pd f))

/-! ## The outbound wire payload (`requestPayload`) -/

/-- The object POSTed to the UPG API (upgService.js lines 50-92): required
keys always present, optional keys present only under the source's
conditions.  `AmountTrxn`/`Currency` are `parseInt` results (`none` = NaN). -/
structure RequestPayload where
  AmountTrxn : Option ℤ
  Currency : Option ℤ
  MerchantReference : JsVal
  MobileNumber : JsVal
  MerchantId : JsVal
  TerminalId : JsVal
  DateTimeLocalTrxn : String
  SecureHash : String
  Validity : Option String := none
  LoyaltyNumber : Option JsVal := none
  CustomerLabel : Option JsVal := none
  PurposeOfTransaction : Option JsVal := none
  BillNumber : Option JsVal := none
  Tip : Option Bool := none
  ConvenienceFeeFixed : Option JsVal := none
  ConvenienceFeePercentage : Option JsVal := none
deriving DecidableEq, Repr

/-- JS `undefined`-aware read of a property for value positions
(absent properties interpolate as `undefined`; the code only reaches value
positions for present properties). -/
def jsGet (o : Option JsVal) : JsVal := o.getD .nan

/-- Build the outbound payload (upgService.js lines 39-92; identical text in
all three revisions of the file).  `dt` is the freshly generated
`dateTimeLocalTrxn`, passed explicitly since it reads the wall clock. -/
def buildRequestPayload (pd : PaymentData) (dt : String) : RequestPayload :=
  let secureHash := generateSecureHash dt (jsToString (jsGet pd.merchantId))
    (jsToString (jsGet pd.terminalId)) (jsToString (jsGet pd.merchantSecretKey))
  { AmountTrxn := jsParseInt (jsGet pd.amountTrxn)
    Currency := jsParseInt (jsGet pd.currency)
    MerchantReference := if getT pd.merchantReference then jsGet pd.merchantReference else .str ""
    MobileNumber := jsGet pd.mobileNumber
    MerchantId := jsGet pd.merchantId
    TerminalId := jsGet pd.terminalId
    DateTimeLocalTrxn := dt
    SecureHash := secureHash
    Validity := if getT pd.validity then some (jsToString (jsGet pd.validity)) else none
    LoyaltyNumber := if getT pd.loyaltyNumber then pd.loyaltyNumber else none
    CustomerLabel := if getT pd.customerLabel then pd.customerLabel else none
    PurposeOfTransaction := if getT pd.purposeOfTransaction then pd.purposeOfTransaction else none
    BillNumber := if getT pd.billNumber then pd.billNumber else none
    Tip := if pd.tip = some (.bool true) then some true else none
    ConvenienceFeeFixed :=
      if getT pd.convenienceFeeFixed && !getT pd.tip && !getT pd.convenienceFeePercentage
      then some (jsParseFloat (jsGet pd.convenienceFeeFixed)) else none
    ConvenienceFeePercentage :=
      if getT pd.convenienceFeePercentage && !getT pd.tip && !getT pd.convenienceFeeFixed
      then some (jsParseFloat (jsGet pd.convenienceFeePercentage)) else none }

/-! ## Network outcomes and axios error shapes -/

/-- What one outbound HTTP attempt can produce, as far as the error handling
observes it: a received HTTP reply, or a transport-level failure (request
sent, no response) carrying the axios error's `code`, `message` and timeout
flag. -/
inductive Outcome where
  | received (status : Nat) (data : JsVal)
  | transport (code : Option String) (message : String) (timedOut : Bool)
deriving DecidableEq, Repr

/-- Digit characters used to model JS number-to-string interpolation of a
status code. -/
def digitChar (n : Nat) : Char :=
  if n = 0 then '0' else if n = 1 then '1' else if n = 2 then '2'
  else if n = 3 then '3' else if n = 4 then '4' else if n = 5 then '5'
  else if n = 6 then '6' else if n = 7 then '7' else if n = 8 then '8' else '9'

/-- Decimal digit list of a natural number (most significant first). -/
def natDigits (n : Nat) : List Char :=
  if h : n < 10 then [digitChar n]
  else natDigits (n / 10) ++ [digitChar (n % 10)]
termination_by n
decreasing_by exact Nat.div_lt_self (by omega) (by omega)

/-- Decimal rendering of a natural number (JS template interpolation). -/
def natToString (n : Nat) : String := String.mk (natDigits n)

/-- `JSON.stringify` of the modelled scalar payload values. -/
def jsonStringify : JsVal → String
  | .str s => "\"" ++ s ++ "\""
  | .num q => if q.den = 1 then toString q.num else toString q
  | .bool b => if b then "true" else "false"
  | .nan => "null"

/-- The error object axios rejects with, as far as the catch blocks read it:
`response` presence (with status and data), `code`, `message`, `timeout`. -/
structure AxiosErr where
  responseStatus : Option (Nat × JsVal)
  code : Option String
  message : String
  timedOut : Bool
deriving DecidableEq, Repr

/-- How an attempt's outcome surfaces through axios with
`validateStatus: status < 500` (upgService.js lines 112-114): replies below
500 resolve with their data; replies at or above 500 reject with a bad-response
error; transport failures reject with their code/message. -/
def axiosResult (o : Outcome) : Except AxiosErr JsVal :=
  match o with
  | .received status data =>
    if status < 500 then .ok data
    else .error ⟨some (status, data), some "ERR_BAD_RESPONSE",
      "Request failed with status code " ++ natToString status, false⟩
  | .transport c m t => .error ⟨none, c, m, t⟩

/-! ## Error messages of the catch blocks -/

/-- Default base URL (upgService.js line 5; the environment override does not
matter to any property below). -/
def UPG_BASE_URL : String := "https://upg.egyptianbanks.com/cube/paylink.svc/api"

/-- `${error.code}` interpolation: an absent code prints as `undefined`. -/
def optCodeStr : Option String → String
  | some c => c
  | none => "undefined"

/-- Transport-error message of the first revision's catch block
(upgService.js lines 152-162). -/
def transportErrorMessage1 (code : Option String) (message : String) (timedOut : Bool) : String :=
  if code = some "ENOTFOUND" then
    "DNS resolution failed. Unable to resolve UPG API hostname. Check internet connectivity and DNS settings."
  else if code = some "ECONNREFUSED" then
    "Connection refused by UPG API server. The service may be down or blocked by firewall."
  else if code = some "ETIMEDOUT" ∨ timedOut = true then
    "Request timeout. UPG API server is not responding within the expected time."
  else if code = some "ECONNRESET" then
    "Connection reset by UPG API server. Network interruption occurred."
  else
    "Network connectivity issue (" ++ optCodeStr code ++ "): " ++ message ++
      ". Please check AWS security groups, NAT gateway, and internet connectivity."

/-- The DNS-failure message of the retry revision (upgService.js line 364). -/
def dnsFailMsg2 : String :=
  "DNS resolution failed for '" ++ UPG_BASE_URL ++
    "'. This indicates AWS VPC DNS configuration issues. Check: 1) VPC DNS resolution enabled, 2) VPC DNS hostnames enabled, 3) Security group allows port 53 (DNS), 4) Route table has internet gateway/NAT gateway, 5) /etc/resolv.conf has valid nameservers."

/-- Connection-refused message (upgService.js line 366). -/
def connRefusedMsg : String :=
  "Connection refused by UPG API server. The service may be down or blocked by firewall."

/-- Timeout message (upgService.js line 368). -/
def timeoutMsg : String :=
  "Request timeout. UPG API server is not responding within the expected time."

/-- Connection-reset message (upgService.js line 370). -/
def connResetMsg : String :=
  "Connection reset by UPG API server. Network interruption occurred."

/-- Abort (90-second client timeout) message (upgService.js line 372). -/
def abortMsg : String :=
  "Request timeout after 90 seconds. This may indicate slow network or AWS NAT Gateway issues. Check AWS VPC configuration."

/-- Generic connectivity message (upgService.js line 374). -/
def genericConnMsg (code : Option String) (message : String) : String :=
  "Network connectivity issue (" ++ optCodeStr code ++ "): " ++ message ++
    ". Please check AWS security groups, NAT gateway, and internet connectivity."

/-- Transport-error message of the retry revision's catch block
(upgService.js lines 363-375). -/
def transportErrorMessage2 (code : Option String) (message : String) (timedOut : Bool) : String :=
  if code = some "ENOTFOUND" then dnsFailMsg2
  else if code = some "ECONNREFUSED" then connRefusedMsg
  else if code = some "ETIMEDOUT" ∨ timedOut = true then timeoutMsg
  else if code = some "ECONNRESET" then connResetMsg
  else if code = some "ECONNABORTED" then abortMsg
  else genericConnMsg code message

/-- The outer catch of the retry revision (upgService.js lines 343-380)
applied to the axios error that escaped the loop: a reply error maps to
`UPG API Error (status)`, a transport error to its category message.  (The
`else` setup branch is unreachable for loop errors, which all carry either a
response or a request.) -/
def upgCatchMessage2 (e : AxiosErr) : String :=
  match e.responseStatus with
  | some sd => "UPG API Error (" ++ natToString sd.1 ++ "): " ++ jsonStringify sd.2
  | none => transportErrorMessage2 e.code e.message e.timedOut

deriving instance DecidableEq for Except

/-! ## requestToPay, first revision (upgService.js lines 28-169) -/

/-- Result of one requestToPay call: the value returned or the message of the
error thrown, plus the payloads actually POSTed (to observe whether a network
call was attempted). -/
structure ServiceResult where
  result : Except String JsVal
  sent : List RequestPayload
deriving DecidableEq, Repr

/-- First-revision `requestToPay`: validate the six required fields, build and
sign the payload, POST once (`net` is the network's behaviour on the posted
payload), and map errors in the catch block.  A validation throw is wrapped by
the catch's `else` branch into `Request setup error: ...`. -/
def requestToPay (pd : PaymentData) (dt : String) (net : RequestPayload → Outcome) :
    ServiceResult :=
  match firstFalsy pd with
  | some f =>
    { result := .error ("Request setup error: Missing required field: " ++ reqFieldName f)
      sent := [] }
  | none =>
    let payload := buildRequestPayload pd dt
    match axiosResult (net payload) with
    | .ok data => { result := .ok data, sent := [payload] }
    | .error e =>
      { result := .error
          (match e.responseStatus with
           | some sd => "UPG API Error (" ++ natToString sd.1 ++ "): " ++ jsonStringify sd.2
           | none => transportErrorMessage1 e.code e.message e.timedOut)
        sent := [payload] }

/-! ## requestToPay, retry revision (upgService.js lines 201-382) -/

/-- `maxRetries` (upgService.js line 275). -/
def maxRetries : Nat := 3

/-- Does the character list start with the pattern? -/
def listStartsWith : List Char → List Char → Bool
  | _, [] => true
  | [], _ :: _ => false
  | a :: as, b :: bs => a == b && listStartsWith as bs

/-- Does the haystack contain the pattern as a contiguous sublist? -/
def containsSub (hay pat : List Char) : Bool :=
  match hay with
  | [] => listStartsWith [] pat
  | _ :: t => listStartsWith hay pat || containsSub t pat

/-- JS `String.prototype.includes`. -/
def includesStr (s pat : String) : Bool := containsSub s.data pat.data

/-- The retry condition (upgService.js lines 312-317) without the
attempt bound: code is abort/timeout/reset, or the message mentions a
timeout. -/
def shouldRetryErr (e : AxiosErr) : Bool :=
  e.code == some "ECONNABORTED" || e.code == some "ETIMEDOUT" ||
  e.code == some "ECONNRESET" || includesStr e.message "timeout"

/-- Outcome of the attempt loop: the final result, the number of the last
attempt performed, and the backoff delays (ms) waited between attempts. -/
structure LoopOut where
  result : Except AxiosErr JsVal
  finalAttempt : Nat
  delays : List Nat
deriving DecidableEq, Repr

/-- The attempt loop (upgService.js lines 291-327): try the attempt; on
success return; on a retryable error before the last attempt wait
`attempt * 3000` ms and continue; otherwise break with the error.
`remaining` is the number of attempts still allowed after the current one
(`maxRetries - attempt`), so `0 < remaining` is the source's
`attempt < maxRetries` bound; it makes the recursion structural. -/
def runLoop (net : Nat → Outcome) : Nat → Nat → List Nat → LoopOut
  | remaining, attempt, acc =>
    match axiosResult (net attempt) with
    | .ok data => ⟨.ok data, attempt, acc⟩
    | .error e =>
      match remaining with
      | 0 => ⟨.error e, attempt, acc⟩
      | r + 1 =>
        if shouldRetryErr e then runLoop net r (attempt + 1) (acc ++ [attempt * 3000])
        else ⟨.error e, attempt, acc⟩

/-- The attempt loop started at attempt 1 with `maxRetries - 1` retries left. -/
def runAttempts (net : Nat → Outcome) : LoopOut :=
  runLoop net (maxRetries - 1) 1 []

/-- Result of the retry-revision requestToPay, with the attempt count and
delays made observable. -/
structure RetryServiceResult where
  result : Except String JsVal
  attempts : Nat
  delays : List Nat
  sent : List RequestPayload
deriving DecidableEq, Repr

/-- Retry-revision `requestToPay`: validation and payload construction are
identical to the first revision; the POST is wrapped in the attempt loop; the
escaped error is mapped by the outer catch.  `net i` is the network's
behaviour on attempt `i` (the same signed payload is POSTed each attempt). -/
def requestToPayRetry (pd : PaymentData) (dt : String) (net : Nat → Outcome) :
    RetryServiceResult :=
  match firstFalsy pd with
  | some f =>
    { result := .error ("Request setup error: Missing required field: " ++ reqFieldName f)
      attempts := 0, delays := [], sent := [] }
  | none =>
    let payload := buildRequestPayload pd dt
    let out := runAttempts net
    { result :=
        match out.result with
        | .ok data => .ok data
        | .error e => .error (upgCatchMessage2 e)
      attempts := out.finalAttempt
      delays := out.delays
      sent := List.replicate out.finalAttempt payload }

/-! ## The POST /api/request-to-pay handler (src/server.js lines 44-125) -/

/-- The request body, as submitted by the payment form (URL-encoded or JSON;
all fields arrive as strings, absent fields are `undefined`). -/
structure ReqBody where
  amount : Option String := none
  mobileNumber : Option String := none
  merchantReference : Option String := none
  validity : Option String := none
  loyaltyNumber : Option String := none
  customerLabel : Option String := none
  purposeOfTransaction : Option String := none
  billNumber : Option String := none
  tip : Option String := none
  convenienceFeeFixed : Option String := none
  convenienceFeePercentage : Option String := none
deriving DecidableEq, Repr

/-- Environment-derived configuration (server.js lines 16-23).
`currencyEgp` defaults to 818 (`parseInt(process.env.DEFAULT_CURRENCY) || 818`)
and `defaultValidity` to "30". -/
structure ServerConfig where
  merchantId : String
  terminalId : String
  merchantSecretKey : String
  currencyEgp : ℤ := 818
  defaultValidity : String := "30"
deriving DecidableEq, Repr

/-- `x || dflt` on an optional string (JS falsy fallback). -/
def jsOrDefault (o : Option String) (dflt : String) : String :=
  match o with
  | some s => if s = "" then dflt else s
  | none => dflt

/-- `Math.round(parseFloat(amount) * 100)` (server.js line 69); `none` = NaN. -/
def amountPiasters? (s : String) : Option ℤ :=
  (parseDecimal? s).map (fun q => jsMathRound (jsTimes100 q))

/-- An optional body field copied into paymentData with `.trim()` when
truthy (server.js lines 91-94). -/
def optTrimmed (o : Option String) : Option JsVal :=
  match o with
  | some s => if s ≠ "" then some (.str s.trim) else none
  | none => none

/-- The `paymentData` object the server builds (server.js lines 79-99).
`nowRef` stands for the generated `REF_${Date.now()}` fallback reference.
Note the fee conditions test truthiness of the RAW body fields (`!tip`,
`!convenienceFeeFixed`), not of the converted values. -/
def serverPaymentData (b : ReqBody) (cfg : ServerConfig) (nowRef : String) : PaymentData :=
  { amountTrxn :=
      some (match b.amount with
        | some s =>
          match amountPiasters? s with
          | some v => .num (v : ℚ)
          | none => .nan
        | none => .nan)
    currency := some (.num (cfg.currencyEgp : ℚ))
    mobileNumber := some (.str ((b.mobileNumber.getD "").trim))
    merchantId := some (.str cfg.merchantId)
    terminalId := some (.str cfg.terminalId)
    merchantSecretKey := some (.str cfg.merchantSecretKey)
    merchantReference := some (.str (jsOrDefault b.merchantReference nowRef))
    validity := some (.str (jsOrDefault b.validity cfg.defaultValidity))
    loyaltyNumber := optTrimmed b.loyaltyNumber
    customerLabel := optTrimmed b.customerLabel
    purposeOfTransaction := optTrimmed b.purposeOfTransaction
    billNumber := optTrimmed b.billNumber
    tip := if b.tip = some "true" then some (.bool true) else none
    convenienceFeeFixed :=
      match b.convenienceFeeFixed with
      | some s =>
        if s ≠ "" ∧ ¬ truthyS b.tip = true then some (jsParseFloat (.str s)) else none
      | none => none
    convenienceFeePercentage :=
      match b.convenienceFeePercentage with
      | some s =>
        if s ≠ "" ∧ ¬ truthyS b.tip = true ∧ ¬ truthyS b.convenienceFeeFixed = true
        then some (jsParseFloat (.str s)) else none
      | none => none }

/-- The success envelope returned to the caller (server.js lines 107-115). -/
structure SuccessEnvelope where
  data : JsVal
  amount : String
  mobileNumber : String
  merchantReference : String
deriving DecidableEq, Repr

/-- The HTTP response of the endpoint. -/
inductive ServerResult where
  | badRequest (error : String)
  | ok (envelope : SuccessEnvelope)
  | serverError (error : String)
deriving DecidableEq, Repr

/-- The POST /api/request-to-pay handler (server.js lines 44-125).  `upg` is
the `requestToPay` call (abstracted so either revision, with its network, can
be plugged in); `nowRef` the generated fallback reference. -/
def handleRequestToPay (b : ReqBody) (cfg : ServerConfig) (nowRef : String)
    (upg : PaymentData → Except String JsVal) : ServerResult :=
  if ¬ (truthyS b.amount = true ∧ truthyS b.mobileNumber = true) then
    .badRequest "Amount and Mobile Number are required fields."
  else
    let amountInPiasters := amountPiasters? (b.amount.getD "")
    if (match amountInPiasters with | some v => decide (v ≤ 0) | none => false) = true then
      .badRequest "Amount must be greater than zero."
    else
      let pd := serverPaymentData b cfg nowRef
      match upg pd with
      | .ok result =>
        .ok { data := result
              amount := b.amount.getD ""
              mobileNumber := b.mobileNumber.getD ""
              merchantReference := jsOrDefault b.merchantReference nowRef }
      | .error e => .serverError (if e = "" then "Payment request failed" else e)

/-! ## Observation helpers and concrete inputs used in the statements -/

/-- Is one attempt's outcome in the retryable class, as the loop condition
(upgService.js lines 312-317) judges the axios error it produces?  A resolved
reply is never retried. -/
def outcomeRetryable (o : Outcome) : Bool :=
  match axiosResult o with
  | .ok _ => false
  | .error e => shouldRetryErr e

/-- Did the attempt receive an HTTP reply (of any status)? -/
def outcomeIsReceived : Outcome → Bool
  | .received _ _ => true
  | .transport _ _ _ => false

/-- Did the attempt fail at the transport level (no reply received)? -/
def outcomeIsTransport : Outcome → Bool
  | .received _ _ => false
  | .transport _ _ _ => true

/-- A paymentData with all six required fields present and truthy. -/
def basePd : PaymentData :=
  { amountTrxn := some (.num 1050), currency := some (.num 818),
    mobileNumber := some (.str "01012345678"), merchantId := some (.str "M1"),
    terminalId := some (.str "T1"), merchantSecretKey := some (.str "0b") }

/-- `basePd` with both a fixed and a percentage convenience fee and no tip. -/
def bothFeesPd : PaymentData :=
  { basePd with convenienceFeeFixed := some (.num 5),
                convenienceFeePercentage := some (.num 2) }

/-- The endpoint body of the spec's worked example: amount `10.50`,
destination `01012345678`. -/
def tenFiftyBody : ReqBody :=
  { amount := some "10.50", mobileNumber := some "01012345678" }

/-- The example body with both convenience fees supplied and no tip. -/
def bothFeesBody : ReqBody :=
  { tenFiftyBody with convenienceFeeFixed := some "5",
                      convenienceFeePercentage := some "2" }

/-- A concrete server configuration. -/
def demoCfg : ServerConfig :=
  { merchantId := "M1", terminalId := "T1", merchantSecretKey := "0b" }

/-- A network that times out on the first two attempts and answers 200 on the
third. -/
def wnet : Nat → Outcome := fun i =>
  if i < 3 then .transport (some "ETIMEDOUT") "read ETIMEDOUT" true
  else .received 200 (.str "ok")

/-- A network whose every attempt fails DNS resolution. -/
def dnsNet : Nat → Outcome := fun _ =>
  .transport (some "ENOTFOUND") "getaddrinfo ENOTFOUND upg.egyptianbanks.com" false

/-! # Theorems -/

/-! ## Shared helper lemmas -/

/-- Strict hex decoding succeeding implies the Node (truncating) decode gives
the same bytes. -/
theorem hexDecodeNodeAux_of_spec :
    ∀ l bs, hexDecodeSpecAux l = some bs → hexDecodeNodeAux l = bs := by
  intro l
  induction l using hexDecodeSpecAux.induct with
  | case1 => intro bs h; simp [hexDecodeSpecAux] at h; simp [hexDecodeNodeAux, h]
  | case2 c1 c2 rest ih =>
    intro bs h
    simp [hexDecodeSpecAux, Option.bind_eq_some] at h
    obtain ⟨h1, hv1, h2, hv2, t, ht, rfl⟩ := h
    simp [hexDecodeNodeAux, hv1, hv2, ih t ht]
  | case3 c => intro bs h; simp [hexDecodeSpecAux] at h

/-- The signature depends on the secret key only through its (Node-decoded)
bytes. -/
theorem generateSecureHash_key_congr (t m term k1 k2 : String)
    (h : hexDecodeNode k1 = hexDecodeNode k2) :
    generateSecureHash t m term k1 = generateSecureHash t m term k2 := by
  unfold generateSecureHash
  rw [h]

/-- The canonical signing string determines the timestamp component. -/
theorem dataString_inj_t (t1 t2 m term : String)
    (h : dataString t1 m term = dataString t2 m term) : t1 = t2 := by
  unfold dataString at h
  have h' := congrArg String.data h
  simp only [String.data_append, List.append_assoc] at h'
  have h2 := List.append_cancel_left h'
  exact String.ext (List.append_cancel_right h2)

/-- The canonical signing string determines the merchant-id component. -/
theorem dataString_inj_m (t m1 m2 term : String)
    (h : dataString t m1 term = dataString t m2 term) : m1 = m2 := by
  unfold dataString at h
  have h' := congrArg String.data h
  simp only [String.data_append, List.append_assoc] at h'
  have h2 := List.append_cancel_left (List.append_cancel_left (List.append_cancel_left h'))
  exact String.ext (List.append_cancel_right h2)

/-- The canonical signing string determines the terminal-id component. -/
theorem dataString_inj_term (t m term1 term2 : String)
    (h : dataString t m term1 = dataString t m term2) : term1 = term2 := by
  unfold dataString at h
  have h' := congrArg String.data h
  simp only [String.data_append, List.append_assoc] at h'
  exact String.ext (List.append_cancel_left (List.append_cancel_left
    (List.append_cancel_left (List.append_cancel_left (List.append_cancel_left h')))))

/-! ## C2: generateSecureHash computes uppercase-hex HMAC-SHA256 of the
canonical string with the hex-decoded key -/

/-- C2: for every timestamp token, merchant id, terminal id and valid
hex-encoded key, `generateSecureHash` equals the uppercase hexadecimal
HMAC-SHA256, keyed with the decoded key bytes, of the exact string
`DateTimeLocalTrxn=<t>&MerchantId=<m>&TerminalId=<term>`. -/
theorem generateSecureHash_spec (t m term k : String) (bs : List Nat)
    (h : hexDecodeSpec k = some bs) :
    generateSecureHash t m term k = signSpec t m term bs := by
  unfold generateSecureHash signSpec dataString hexDecodeNode
  rw [hexDecodeNodeAux_of_spec k.data bs h]

/-- Witness for C2 at a concrete valid-hex key. -/
theorem generateSecureHash_spec_witness :
    hexDecodeSpec "0b" = some [11] ∧
      generateSecureHash "A" "B" "C" "0b" = signSpec "A" "B" "C" [11] :=
  ⟨by decide, generateSecureHash_spec "A" "B" "C" "0b" [11] (by decide)⟩

/-! ## C3: per-argument injectivity of the signature (corrected) -/

/-- C3 counterexample: two different secret-key strings ("ab" and "abz",
whose trailing invalid character Node truncates away) produce the same
signature, so the signature is not injective in the key argument. -/
theorem signature_key_collision :
    "ab" ≠ "abz" ∧
      generateSecureHash "t" "m" "x" "ab" = generateSecureHash "t" "m" "x" "abz" :=
  ⟨by decide, generateSecureHash_key_congr "t" "m" "x" "ab" "abz" rfl⟩

/-- C3 amended: changing exactly one of the three message components
(timestamp token, merchant id, terminal id) always changes the canonical
string being signed; but the signature is not injective in the secret key:
it depends on the key only through its truncating hex decode, so keys with
equal decodes collide. -/
theorem signing_inputs_inj_amended :
    (∀ t1 t2 m term, dataString t1 m term = dataString t2 m term → t1 = t2) ∧
    (∀ t m1 m2 term, dataString t m1 term = dataString t m2 term → m1 = m2) ∧
    (∀ t m term1 term2, dataString t m term1 = dataString t m term2 → term1 = term2) ∧
    (∀ t m term k1 k2, hexDecodeNode k1 = hexDecodeNode k2 →
      generateSecureHash t m term k1 = generateSecureHash t m term k2) :=
  ⟨dataString_inj_t, dataString_inj_m, dataString_inj_term,
   fun t m term k1 k2 h => generateSecureHash_key_congr t m term k1 k2 h⟩

/-- Witness for the amended C3 at concrete inputs. -/
theorem signing_inputs_inj_amended_witness :
    "250101" = "250101" ∧
      generateSecureHash "t" "m" "x" "ab" = generateSecureHash "t" "m" "x" "abz" :=
  ⟨signing_inputs_inj_amended.1 "250101" "250101" "M" "T" rfl,
   signing_inputs_inj_amended.2.2.2 "t" "m" "x" "ab" "abz" rfl⟩

/-! ## C4: failure behaviour on malformed keys (corrected) -/

/-- C4 counterexample: "zz" is not valid hexadecimal, yet `generateSecureHash`
does not fail on it: it returns the signature computed with the truncated
(here empty) key, indistinguishable from the key `""`. -/
theorem invalid_hex_key_no_failure :
    hexDecodeSpec "zz" = none ∧
      generateSecureHashE "t" "m" "x" "zz" = .ok (generateSecureHash "t" "m" "x" "") := by
  refine ⟨by decide, ?_⟩
  show Except.ok (generateSecureHash "t" "m" "x" "zz") = _
  exact congrArg Except.ok (generateSecureHash_key_congr "t" "m" "x" "zz" "" rfl)

/-- C4 amended: `generateSecureHash` never throws, for any key string:
`Buffer.from(key, 'hex')` truncates at the first invalid pair instead of
failing, and the signature of the canonical string is returned, keyed with
the (possibly empty) truncated decode. -/
theorem generateSecureHashE_total (t m term k : String) :
    generateSecureHashE t m term k = .ok (signSpec t m term (hexDecodeNode k)) := rfl

/-! ## C5, C10: required-field validation -/

/-- Every `ReqField` is in the required list. -/
theorem mem_requiredFields (f : ReqField) : f ∈ requiredFields := by
  cases f <;> simp [requiredFields]

/-- If `f` is falsy and every other required field is truthy, the validation
loop reports `f`. -/
theorem firstFalsy_of_only (pd : PaymentData) (f : ReqField)
    (h1 : getT (getReq pd f) = false)
    (h2 : ∀ g ∈ requiredFields, g ≠ f → getT (getReq pd g) = true) :
    firstFalsy pd = some f := by
  cases f <;>
    simp_all [firstFalsy, requiredFields, List.find?]

/-- C5: if one required field is absent from the paymentData and the other
required fields are present and truthy, `requestToPay` fails with the error
naming that missing field ("Missing required field: ...", wrapped by the
catch block's setup branch), and no payload is POSTed. -/
theorem requestToPay_missing_field (pd : PaymentData) (dt : String)
    (net : RequestPayload → Outcome) (f : ReqField)
    (h1 : getReq pd f = none)
    (h2 : ∀ g ∈ requiredFields, g ≠ f → getT (getReq pd g) = true) :
    requestToPay pd dt net =
      { result := .error ("Request setup error: Missing required field: " ++ reqFieldName f)
        sent := [] } := by
  have hf : firstFalsy pd = some f :=
    firstFalsy_of_only pd f (by rw [h1]; rfl) h2
  unfold requestToPay
  rw [hf]

/-- Witness for C5: missing secret key rejected, nothing sent. -/
theorem requestToPay_missing_field_witness :
    requestToPay { basePd with merchantSecretKey := none } "t"
        (fun _ => Outcome.received 200 (.str "ok")) =
      { result := .error "Request setup error: Missing required field: merchantSecretKey"
        sent := [] } :=
  requestToPay_missing_field _ "t" _ .merchantSecretKey rfl (by decide)

/-- The validation outcome only depends on the truthiness of the six required
fields. -/
theorem firstFalsy_congr (pd1 pd2 : PaymentData)
    (h : ∀ g ∈ requiredFields, getT (getReq pd1 g) = getT (getReq pd2 g)) :
    firstFalsy pd1 = firstFalsy pd2 := by
  have h1 := h .amountTrxn (by simp [requiredFields])
  have h2 := h .currency (by simp [requiredFields])
  have h3 := h .mobileNumber (by simp [requiredFields])
  have h4 := h .merchantId (by simp [requiredFields])
  have h5 := h .terminalId (by simp [requiredFields])
  have h6 := h .merchantSecretKey (by simp [requiredFields])
  simp [firstFalsy, requiredFields, List.find?, h1, h2, h3, h4, h5, h6]

/-- C10: a required field that is present but falsy (0, empty string, false,
NaN) makes `requestToPay` behave exactly as if the field were absent: the
whole observable result (error and absence of network traffic) coincides. -/
theorem requestToPay_falsy_value_eq_absent (pd : PaymentData) (dt : String)
    (net : RequestPayload → Outcome) (f : ReqField) (v : JsVal)
    (hv : truthy v = false) :
    requestToPay (setReq pd f (some v)) dt net =
      requestToPay (setReq pd f none) dt net := by
  have hpt : ∀ g ∈ requiredFields,
      getT (getReq (setReq pd f (some v)) g) = getT (getReq (setReq pd f none) g) := by
    intro g _
    cases f <;> cases g <;> simp [setReq, getReq, getT, hv]
  have hff := firstFalsy_congr _ _ hpt
  have hsome : (firstFalsy (setReq pd f none)).isSome := by
    rw [firstFalsy, List.find?_isSome]
    refine ⟨f, mem_requiredFields f, ?_⟩
    have hfv : getT (getReq (setReq pd f none) f) = false := by
      cases f <;> simp [setReq, getReq, getT]
    simp [hfv]
  obtain ⟨g0, hg0⟩ := Option.isSome_iff_exists.mp hsome
  unfold requestToPay
  rw [hff, hg0]

/-- Witness for C10: `amountTrxn` equal to 0 behaves as absent. -/
theorem requestToPay_falsy_value_eq_absent_witness :
    truthy (.num 0) = false ∧
      requestToPay (setReq basePd .amountTrxn (some (.num 0))) "t"
          (fun _ => Outcome.received 200 (.str "ok")) =
        requestToPay (setReq basePd .amountTrxn none) "t"
          (fun _ => Outcome.received 200 (.str "ok")) :=
  ⟨by decide, requestToPay_falsy_value_eq_absent basePd "t" _ .amountTrxn (.num 0) (by decide)⟩

/-! ## C7: sub-500 responses are returned unmodified -/

/-- C7: when validation passes and the POST receives an HTTP reply with
status below 500, `requestToPay` returns the reply payload unchanged
(`validateStatus: status < 500` resolves it), whatever the payload says. -/
theorem requestToPay_sub500_passthrough (pd : PaymentData) (dt : String)
    (net : RequestPayload → Outcome) (status : Nat) (data : JsVal)
    (hv : firstFalsy pd = none) (hs : status < 500)
    (hnet : net (buildRequestPayload pd dt) = .received status data) :
    (requestToPay pd dt net).result = .ok data := by
  unfold requestToPay
  rw [hv]
  simp only [hnet, axiosResult, if_pos hs]

/-- Witness for C7: a 400 reply carrying a business decline is passed
through. -/
theorem requestToPay_sub500_passthrough_witness :
    firstFalsy basePd = none ∧
      (requestToPay basePd "t" (fun _ => Outcome.received 400 (.str "declined"))).result =
        .ok (.str "declined") :=
  ⟨by decide, requestToPay_sub500_passthrough basePd "t" _ 400 (.str "declined")
    (by decide) (by decide) rfl⟩

/-! ## C1: convenience-fee precedence (corrected) -/

/-- C1 counterexample: a paymentData carrying both a fixed and a percentage
convenience fee (and no tip) produces an outbound payload with NEITHER fee
field — the gateway layer's condition (`fixed && !tip && !percentage`)
suppresses the fixed fee too, so the claimed fixed-over-percentage precedence
does not hold on the outbound payload layer. -/
theorem gateway_both_fees_drops_fixed :
    getT bothFeesPd.convenienceFeeFixed = true ∧
    getT bothFeesPd.convenienceFeePercentage = true ∧
    getT bothFeesPd.tip = false ∧
    (buildRequestPayload bothFeesPd "t").ConvenienceFeeFixed = none ∧
    (buildRequestPayload bothFeesPd "t").ConvenienceFeePercentage = none :=
  ⟨rfl, rfl, rfl, rfl, rfl⟩

/-- C1 amended: (i) on the server's input layer, supplying both fees without
a tip keeps only the fixed fee; (ii) on the gateway's outbound layer, a
paymentData carrying both fees yields a payload with neither fee field
(mutual suppression, not fixed-over-percentage); (iii) a truthy tip
suppresses both fee fields at either layer; (iv) end to end through the
server, both fees without a tip result in a wire payload carrying only the
fixed fee (provided the fixed fee parses to a truthy number). -/
theorem fee_precedence_amended :
    (∀ b cfg nowRef, truthyS b.convenienceFeeFixed = true →
      truthyS b.convenienceFeePercentage = true → truthyS b.tip = false →
      (∃ s, b.convenienceFeeFixed = some s ∧
        (serverPaymentData b cfg nowRef).convenienceFeeFixed = some (jsParseFloat (.str s))) ∧
      (serverPaymentData b cfg nowRef).convenienceFeePercentage = none) ∧
    (∀ pd dt, getT pd.convenienceFeeFixed = true → getT pd.convenienceFeePercentage = true →
      (buildRequestPayload pd dt).ConvenienceFeeFixed = none ∧
      (buildRequestPayload pd dt).ConvenienceFeePercentage = none) ∧
    (∀ pd dt, getT pd.tip = true →
      (buildRequestPayload pd dt).ConvenienceFeeFixed = none ∧
      (buildRequestPayload pd dt).ConvenienceFeePercentage = none) ∧
    (∀ b cfg nowRef, truthyS b.tip = true →
      (serverPaymentData b cfg nowRef).convenienceFeeFixed = none ∧
      (serverPaymentData b cfg nowRef).convenienceFeePercentage = none) ∧
    (∀ b cfg nowRef dt, truthyS b.convenienceFeeFixed = true →
      truthyS b.convenienceFeePercentage = true → truthyS b.tip = false →
      (buildRequestPayload (serverPaymentData b cfg nowRef) dt).ConvenienceFeePercentage = none ∧
      (truthy (jsParseFloat (.str (b.convenienceFeeFixed.getD ""))) = true →
        (buildRequestPayload (serverPaymentData b cfg nowRef) dt).ConvenienceFeeFixed =
          some (jsParseFloat (jsParseFloat (.str (b.convenienceFeeFixed.getD "")))))) := by
  have hserver : ∀ (b : ReqBody) cfg nowRef, truthyS b.convenienceFeeFixed = true →
      truthyS b.convenienceFeePercentage = true → truthyS b.tip = false →
      (∃ s, b.convenienceFeeFixed = some s ∧
        (serverPaymentData b cfg nowRef).convenienceFeeFixed = some (jsParseFloat (.str s))) ∧
      (serverPaymentData b cfg nowRef).convenienceFeePercentage = none := by
    intro b cfg nowRef hf hp ht
    match hb : b.convenienceFeeFixed with
    | none => simp [truthyS, hb] at hf
    | some s =>
      have hs : s ≠ "" := by
        intro hcon
        rw [hb, hcon] at hf
        simp [truthyS] at hf
      constructor
      · exact ⟨s, rfl, by simp [serverPaymentData, hb, hs, ht]⟩
      · match hb2 : b.convenienceFeePercentage with
        | none => simp [serverPaymentData, hb2]
        | some s2 => simp [serverPaymentData, hb2, hf]
  refine ⟨hserver, ?_, ?_, ?_, ?_⟩
  · intro pd dt hf hp
    constructor <;> simp [buildRequestPayload, hf, hp]
  · intro pd dt htip
    constructor <;> simp [buildRequestPayload, htip]
  · intro b cfg nowRef htip
    constructor
    · match hb : b.convenienceFeeFixed with
      | none => simp [serverPaymentData, hb]
      | some s => simp [serverPaymentData, hb, htip]
    · match hb : b.convenienceFeePercentage with
      | none => simp [serverPaymentData, hb]
      | some s => simp [serverPaymentData, hb, htip]
  · intro b cfg nowRef dt hf hp ht
    obtain ⟨⟨s, hbs, hfix⟩, hpct⟩ := hserver b cfg nowRef hf hp ht
    have htipn : (serverPaymentData b cfg nowRef).tip = none := by
      have : b.tip ≠ some "true" := by
        intro hcon
        rw [hcon] at ht
        simp [truthyS] at ht
      simp [serverPaymentData, this]
    constructor
    · simp [buildRequestPayload, hpct, getT]
    · intro htr
      have hsd : b.convenienceFeeFixed.getD "" = s := by rw [hbs]; rfl
      rw [hsd] at htr ⊢
      simp [buildRequestPayload, hfix, hpct, htipn, getT, htr, jsGet]

/-- Witness for the amended C1 at the concrete both-fees body. -/
theorem fee_precedence_amended_witness :
    (serverPaymentData bothFeesBody demoCfg "REF").convenienceFeePercentage = none ∧
      (buildRequestPayload (serverPaymentData bothFeesBody demoCfg "REF") "t").ConvenienceFeeFixed =
        some (.num 5) := by
  refine ⟨(fee_precedence_amended.1 bothFeesBody demoCfg "REF" rfl rfl rfl).2, ?_⟩
  have h := (fee_precedence_amended.2.2.2.2 bothFeesBody demoCfg "REF" "t" rfl rfl rfl).2 (by decide)
  rw [h]
  decide

/-! ## C9: the worked example (amount 10.50) -/

/-- Truncation of an integer-valued rational is the integer itself. -/
theorem ratTrunc_intCast (n : ℤ) : ratTrunc ((n : ℚ)) = n := by
  unfold ratTrunc
  rw [Rat.num_intCast, Rat.den_intCast]
  exact Int.tdiv_one n

/-- C9: for the endpoint body with amount "10.50" and mobile number
"01012345678", the wire payload's AmountTrxn is the integer 1050 (minor
units), its Currency is the configured default currency code, and on a
successful gateway call the endpoint's success envelope echoes the original
display amount "10.50" unmodified. -/
theorem example_amount_conversion (cfg : ServerConfig) (nowRef dt : String)
    (upg : PaymentData → Except String JsVal) (d : JsVal)
    (hupg : upg (serverPaymentData tenFiftyBody cfg nowRef) = .ok d) :
    (buildRequestPayload (serverPaymentData tenFiftyBody cfg nowRef) dt).AmountTrxn = some 1050 ∧
    (buildRequestPayload (serverPaymentData tenFiftyBody cfg nowRef) dt).Currency =
      some cfg.currencyEgp ∧
    handleRequestToPay tenFiftyBody cfg nowRef upg =
      .ok { data := d, amount := "10.50", mobileNumber := "01012345678",
            merchantReference := nowRef } := by
  refine ⟨rfl, ?_, ?_⟩
  · show jsParseInt (jsGet (some (.num (cfg.currencyEgp : ℚ)))) = some cfg.currencyEgp
    simp [jsGet, jsParseInt, ratTrunc_intCast]
  · have hh : handleRequestToPay tenFiftyBody cfg nowRef upg =
        (match upg (serverPaymentData tenFiftyBody cfg nowRef) with
         | .ok result => ServerResult.ok
             { data := result, amount := "10.50", mobileNumber := "01012345678",
               merchantReference := nowRef }
         | .error e => .serverError (if e = "" then "Payment request failed" else e)) := rfl
    rw [hh, hupg]

/-- Witness for C9 at a concrete configuration and gateway result. -/
theorem example_amount_conversion_witness :
    (buildRequestPayload (serverPaymentData tenFiftyBody demoCfg "REF") "t").AmountTrxn =
        some 1050 ∧
      handleRequestToPay tenFiftyBody demoCfg "REF" (fun _ => .ok (.str "resp")) =
        .ok { data := .str "resp", amount := "10.50", mobileNumber := "01012345678",
              merchantReference := "REF" } :=
  ⟨(example_amount_conversion demoCfg "REF" "t" (fun _ => .ok (.str "resp")) (.str "resp") rfl).1,
   (example_amount_conversion demoCfg "REF" "t" (fun _ => .ok (.str "resp")) (.str "resp") rfl).2.2⟩

/-! ## C6, C8: the retry loop -/

/-- A prefix match implies membership of the pattern's characters. -/
theorem listStartsWith_subset :
    ∀ (hay pat : List Char), listStartsWith hay pat = true → ∀ c ∈ pat, c ∈ hay := by
  intro hay pat
  induction pat generalizing hay with
  | nil => intro _ c hc; simp at hc
  | cons b bs ih =>
    intro h c hc
    match hay with
    | [] => simp [listStartsWith] at h
    | a :: as =>
      simp only [listStartsWith, Bool.and_eq_true, beq_iff_eq] at h
      obtain ⟨hab, hrest⟩ := h
      rcases List.mem_cons.mp hc with rfl | hcs
      · rw [hab]; exact List.mem_cons_self c as
      · exact List.mem_cons_of_mem a (ih as hrest c hcs)

/-- A substring occurrence implies membership of the pattern's characters. -/
theorem containsSub_subset :
    ∀ (hay pat : List Char), containsSub hay pat = true → ∀ c ∈ pat, c ∈ hay := by
  intro hay
  induction hay with
  | nil =>
    intro pat h c hc
    match pat with
    | [] => simp at hc
    | p :: ps => simp [containsSub, listStartsWith] at h
  | cons a as ih =>
    intro pat h c hc
    simp only [containsSub, Bool.or_eq_true] at h
    rcases h with h | h
    · exact listStartsWith_subset _ _ h c hc
    · exact List.mem_cons_of_mem a (ih pat h c hc)

/-- No digit character is the letter m. -/
theorem digitChar_ne_m : ∀ n, digitChar n ≠ 'm' := by
  intro n
  unfold digitChar
  split_ifs <;> decide

/-- The decimal rendering of a number never contains the letter m. -/
theorem natDigits_ne_m : ∀ n, ∀ c ∈ natDigits n, c ≠ 'm' := by
  intro n
  induction n using Nat.strong_induction_on with
  | _ n ih =>
    intro c hc
    unfold natDigits at hc
    split at hc
    · simp at hc; subst hc; exact digitChar_ne_m n
    · rcases List.mem_append.mp hc with h | h
      · exact ih (n / 10) (Nat.div_lt_self (by omega) (by omega)) c h
      · simp at h; subst h; exact digitChar_ne_m _

/-- The axios bad-response message ("Request failed with status code N")
never contains the substring "timeout": the literal prefix has no letter m
and the status digits are digits. -/
theorem no_timeout_in_bad_response_msg (status : Nat) :
    includesStr ("Request failed with status code " ++ natToString status) "timeout" = false := by
  by_contra h
  rw [Bool.not_eq_false] at h
  have hm : 'm' ∈ ("Request failed with status code " ++ natToString status).data :=
    containsSub_subset _ _ h 'm' (by decide)
  rw [String.data_append] at hm
  rcases List.mem_append.mp hm with h1 | h1
  · revert h1; decide
  · exact natDigits_ne_m status 'm' h1 rfl

/-- A received HTTP reply is never retryable: a sub-500 reply resolves, and
a 500+ reply rejects with code ERR_BAD_RESPONSE and a message that does not
mention a timeout. -/
theorem outcomeRetryable_received (status : Nat) (data : JsVal) :
    outcomeRetryable (.received status data) = false := by
  unfold outcomeRetryable
  by_cases h : status < 500
  · simp [axiosResult, h]
  · simp [axiosResult, h, shouldRetryErr, no_timeout_in_bad_response_msg status]

/-- One-step unfolding of the attempt loop. -/
theorem runLoop_eq (net : Nat → Outcome) (remaining attempt : Nat) (acc : List Nat) :
    runLoop net remaining attempt acc =
      match axiosResult (net attempt) with
      | .ok data => ⟨.ok data, attempt, acc⟩
      | .error e =>
        match remaining with
        | 0 => ⟨.error e, attempt, acc⟩
        | r + 1 =>
          if shouldRetryErr e then runLoop net r (attempt + 1) (acc ++ [attempt * 3000])
          else ⟨.error e, attempt, acc⟩ := by
  rw [runLoop.eq_def]

/-- Invariant of the attempt loop: the final attempt lies between the start
attempt and the retry budget; the recorded delays are exactly
`attempt * 3000` for each retried attempt (hence increasing); the final
result is the axios outcome of the final attempt; and every attempt before
the final one failed with a retryable error. -/
theorem runLoop_spec (net : Nat → Outcome) :
    ∀ remaining attempt acc,
      attempt ≤ (runLoop net remaining attempt acc).finalAttempt ∧
      (runLoop net remaining attempt acc).finalAttempt ≤ attempt + remaining ∧
      (runLoop net remaining attempt acc).delays =
        acc ++ (List.range' attempt
          ((runLoop net remaining attempt acc).finalAttempt - attempt)).map (· * 3000) ∧
      (runLoop net remaining attempt acc).result =
        axiosResult (net (runLoop net remaining attempt acc).finalAttempt) ∧
      (∀ i, attempt ≤ i → i < (runLoop net remaining attempt acc).finalAttempt →
        outcomeRetryable (net i) = true) := by
  intro remaining
  induction remaining with
  | zero =>
    intro attempt acc
    rw [runLoop_eq]
    rcases hn : axiosResult (net attempt) with e | d <;> rw [hn] <;> dsimp only <;>
      exact ⟨le_rfl, by omega, by simp [Nat.sub_self, List.range'], rfl,
        fun i h1 h2 => by omega⟩
  | succ r ih =>
    intro attempt acc
    rcases hn : axiosResult (net attempt) with e | d
    · by_cases hr : shouldRetryErr e = true
      · have hstep : runLoop net (r + 1) attempt acc =
            runLoop net r (attempt + 1) (acc ++ [attempt * 3000]) := by
          rw [runLoop_eq, hn]
          dsimp only
          rw [if_pos hr]
        obtain ⟨ih1, ih2, ih3, ih4, ih5⟩ := ih (attempt + 1) (acc ++ [attempt * 3000])
        rw [hstep]
        refine ⟨by omega, by omega, ?_, ih4, ?_⟩
        · rw [ih3]
          have hk : (runLoop net r (attempt + 1) (acc ++ [attempt * 3000])).finalAttempt - attempt
              = ((runLoop net r (attempt + 1) (acc ++ [attempt * 3000])).finalAttempt
                  - (attempt + 1)) + 1 := by omega
          rw [hk, List.range'_succ attempt _ 1, List.map_cons, List.append_assoc,
            List.singleton_append]
        · intro i hi1 hi2
          rcases Nat.eq_or_lt_of_le hi1 with rfl | hlt
          · unfold outcomeRetryable
            rw [hn]
            exact hr
          · exact ih5 i hlt hi2
      · have hstop : runLoop net (r + 1) attempt acc = ⟨.error e, attempt, acc⟩ := by
          rw [runLoop_eq, hn]
          dsimp only
          rw [if_neg hr]
        rw [hstop]
        dsimp only
        exact ⟨le_rfl, by omega, by simp [Nat.sub_self, List.range'], hn.symm,
          fun i h1 h2 => by omega⟩
    · have hok : runLoop net (r + 1) attempt acc = ⟨.ok d, attempt, acc⟩ := by
        rw [runLoop_eq, hn]
      rw [hok]
      dsimp only
      exact ⟨le_rfl, by omega, by simp [Nat.sub_self, List.range'], hn.symm,
        fun i h1 h2 => by omega⟩

/-- C6: the retry-revision requestToPay performs at most `maxRetries` (3)
attempts; the backoff delays between consecutive attempts are
3000ms, 6000ms, ... (strictly increasing); every attempt that was retried
had failed with a timeout / connection-reset / abort class error (the loop's
condition), and in particular no attempt that received an HTTP reply is ever
retried — any received reply terminates the loop. -/
theorem retry_policy (net : Nat → Outcome) :
    1 ≤ (runAttempts net).finalAttempt ∧
    (runAttempts net).finalAttempt ≤ maxRetries ∧
    (runAttempts net).delays =
      (List.range' 1 ((runAttempts net).finalAttempt - 1)).map (· * 3000) ∧
    List.Chain' (· < ·) (runAttempts net).delays ∧
    (∀ i, 1 ≤ i → i < (runAttempts net).finalAttempt →
      outcomeRetryable (net i) = true ∧ outcomeIsReceived (net i) = false) ∧
    (∀ pd dt, (requestToPayRetry pd dt net).attempts ≤ maxRetries) := by
  obtain ⟨h1, h2, h3, h4, h5⟩ := runLoop_spec net (maxRetries - 1) 1 []
  have h2' : (runAttempts net).finalAttempt ≤ maxRetries := by
    unfold runAttempts
    simp [maxRetries] at h2 ⊢
    omega
  have h3' : (runAttempts net).delays =
      (List.range' 1 ((runAttempts net).finalAttempt - 1)).map (· * 3000) := by
    unfold runAttempts
    simpa using h3
  refine ⟨h1, h2', h3', ?_, ?_, ?_⟩
  · rw [h3']
    have hcases : (runAttempts net).finalAttempt - 1 = 0 ∨
        (runAttempts net).finalAttempt - 1 = 1 ∨ (runAttempts net).finalAttempt - 1 = 2 := by
      have := h2'
      simp [maxRetries] at this
      omega
    rcases hcases with h | h | h <;> rw [h] <;>
      norm_num [List.range', List.chain'_cons, List.chain'_singleton]
  · intro i hi1 hi2
    have hr := h5 i hi1 hi2
    refine ⟨hr, ?_⟩
    rcases hni : net i with ⟨st, d⟩ | ⟨c, m, t⟩
    · rw [hni, outcomeRetryable_received] at hr
      exact absurd hr (by simp)
    · rfl
  · intro pd dt
    unfold requestToPayRetry
    rcases hff : firstFalsy pd with _ | f
    · dsimp only
      exact h2'
    · dsimp only
      simp [maxRetries]

/-- Witness for C6 on a network that times out twice then answers 200. -/
theorem retry_policy_witness :
    (runAttempts wnet).finalAttempt ≤ maxRetries ∧
      outcomeRetryable (wnet 1) = true ∧ outcomeIsReceived (wnet 1) = false := by
  have h := retry_policy wnet
  exact ⟨h.2.1, h.2.2.2.2.1 1 le_rfl (by decide)⟩

/-- C8: when every attempt fails at the transport level, the error raised
after the retries is (i) identical for paymentData differing only in the
merchantSecretKey (the raised message is a function of the network outcomes
alone, so it never contains the secret key), (ii) the category message of
the final attempt's transport error, and (iii) every such category message
is one of: DNS failure, connection refused, timeout, connection reset,
abort (client timeout), or generic connectivity. -/
theorem transport_error_categorized_and_key_independent (pd : PaymentData) (k2 : JsVal)
    (dt : String) (net : Nat → Outcome)
    (hnet : ∀ i, outcomeIsTransport (net i) = true)
    (h1 : firstFalsy pd = none)
    (h2 : firstFalsy { pd with merchantSecretKey := some k2 } = none) :
    (requestToPayRetry { pd with merchantSecretKey := some k2 } dt net).result =
      (requestToPayRetry pd dt net).result ∧
    (∃ c m t, net (runAttempts net).finalAttempt = .transport c m t ∧
      (requestToPayRetry pd dt net).result = .error (transportErrorMessage2 c m t)) ∧
    (∀ c m t, transportErrorMessage2 c m t = dnsFailMsg2 ∨
      transportErrorMessage2 c m t = connRefusedMsg ∨
      transportErrorMessage2 c m t = timeoutMsg ∨
      transportErrorMessage2 c m t = connResetMsg ∨
      transportErrorMessage2 c m t = abortMsg ∨
      transportErrorMessage2 c m t = genericConnMsg c m) := by
  refine ⟨?_, ?_, ?_⟩
  · unfold requestToPayRetry
    rw [h1, h2]
  · obtain ⟨_, _, _, h4, _⟩ := runLoop_spec net (maxRetries - 1) 1 []
    have h4' : (runAttempts net).result = axiosResult (net (runAttempts net).finalAttempt) := h4
    rcases hni : net (runAttempts net).finalAttempt with ⟨st, d⟩ | ⟨c, m, t⟩
    · exfalso
      have := hnet (runAttempts net).finalAttempt
      rw [hni] at this
      simp [outcomeIsTransport] at this
    · refine ⟨c, m, t, rfl, ?_⟩
      have hres : (runAttempts net).result = .error ⟨none, c, m, t⟩ := by
        rw [h4', hni]
        rfl
      unfold requestToPayRetry
      rw [h1]
      dsimp only
      rw [hres]
      rfl
  · intro c m t
    unfold transportErrorMessage2
    split_ifs <;> tauto

/-- Witness for C8: two keys, same all-DNS-failing network, same error. -/
theorem transport_error_key_independent_witness :
    (requestToPayRetry { basePd with merchantSecretKey := some (.str "dd") } "t" dnsNet).result =
      (requestToPayRetry basePd "t" dnsNet).result :=
  (transport_error_categorized_and_key_independent basePd (.str "dd") "t" dnsNet
    (fun _ => rfl) (by decide) (by decide)).1
